import Mathlib

/-!
# Verification of the `report` binary of `twitter-watch`

A shallow embedding of `src/bin/report.rs`: CSV rows are `List String`,
unix timestamps are `Int` (seconds), `u64`/`usize` values are `Nat`
(bounded by the parser), calendar dates are `Int` day numbers
(floor of seconds / 86400), and the filesystem existence probe used by the
thumbnail resolver is a `String → Bool` oracle.  Everything that can abort
the process — out-of-bounds indexing of a `csv::StringRecord`,
`Result::unwrap`, and the unwrap inside chrono's `TimeZone::timestamp`
when the parsed seconds are outside the representable date range — is
modelled by a distinct `panic` outcome, separate from the structured
`Error` values the program returns.  The avatar-URL regex is embedded with
its Rust semantics: `\d` is Unicode's `Nd` category and the greedy `(.*)`
takes the longest successful split.
-/

namespace TwitterWatch

/-- `REPORTED_LIMIT`: at most this many date buckets are rendered. -/
def REPORTED_LIMIT : Nat := 10

/-- `SCREEN_NAMES_FOLLOWERS_COUNT_LIMIT`: follower cutoff for screen-name rows. -/
def SCREEN_NAMES_FOLLOWERS_COUNT_LIMIT : Nat := 200

/-- `SUSPENSIONS_FOLLOWERS_COUNT_LIMIT`: follower cutoff for suspension rows. -/
def SUSPENSIONS_FOLLOWERS_COUNT_LIMIT : Nat := 200

/-! ## Numeric and boolean field grammars (Rust `str::parse`) -/

/-- Value of a list of ASCII digits, most significant first. -/
def digitsVal (cs : List Char) : Nat :=
  cs.foldl (fun a c => a * 10 + (c.toNat - 48)) 0

/-- One-or-more ASCII digits, as in the body of Rust's integer `from_str`. -/
def parseDigits (cs : List Char) : Option Nat :=
  if cs ≠ [] ∧ cs.all Char.isDigit then some (digitsVal cs) else none

/-- Rust `str::parse::<u64>` (also `usize` on 64-bit): optional leading `+`,
one or more digits, value below `2^64`; a leading `-` is rejected. -/
def parseU64 (s : String) : Option Nat :=
  let body := match s.data with
    | '+' :: rest => rest
    | cs => cs
  match parseDigits body with
  | some n => if n < 2 ^ 64 then some n else none
  | none => none

/-- Rust `str::parse::<i64>`: optional sign, one or more digits,
value in `[-2^63, 2^63)`. -/
def parseI64 (s : String) : Option Int :=
  match s.data with
  | '-' :: rest =>
    match parseDigits rest with
    | some n => if (n : Int) ≤ 2 ^ 63 then some (-(n : Int)) else none
    | none => none
  | '+' :: rest =>
    match parseDigits rest with
    | some n => if (n : Int) < 2 ^ 63 then some (n : Int) else none
    | none => none
  | cs =>
    match parseDigits cs with
    | some n => if (n : Int) < 2 ^ 63 then some (n : Int) else none
    | none => none

/-- Rust `str::parse::<bool>`: exactly `"true"` or `"false"`. -/
def parseBool (s : String) : Option Bool :=
  if s = "true" then some true else if s = "false" then some false else none

/-- `usize` is 64-bit here, so its grammar coincides with `u64`. -/
def parseUsize (s : String) : Option Nat := parseU64 s

/-- Calendar date (as a day number) of a unix timestamp:
`DateTime::date` on `Utc.timestamp(t, 0)`. -/
def dayOf (t : Int) : Int := Int.fdiv t 86400

/-- Day number of `-262144-01-01`, chrono's `NaiveDate::MIN` (the year range
of chrono's packed date representation is `-262144 ..= 262143`). -/
def MIN_DAY : Int := -96465658

/-- Day number of `262143-12-31`, chrono's `NaiveDate::MAX`. -/
def MAX_DAY : Int := 95026601

/-- Whether `Utc.timestamp(t, 0)` is representable.  chrono's
`timestamp_opt` accepts exactly the seconds whose day falls between
`NaiveDate::MIN` and `NaiveDate::MAX` (the time-of-day part of a unix
timestamp is always in range); outside it, `TimeZone::timestamp` unwraps a
`LocalResult::None` and the process panics. -/
def tsValid (t : Int) : Bool := MIN_DAY ≤ dayOf t && dayOf t ≤ MAX_DAY

/-- Whether evaluating `s.parse::<i64>().map(|s| Utc.timestamp(s, 0))`
panics: the field parses as `i64` but the seconds are out of chrono's
range.  (A failed parse never reaches `Utc.timestamp`: `map` skips `Err`.) -/
def tsPanics (s : String) : Bool :=
  match parseI64 s with
  | some t => ! tsValid t
  | none => false

/-! ## Error type (`enum Error`) -/

/-- The program's error enum.  `Io` and `Csv` carry opaque payloads in the
source; the two record errors retain the offending raw row. -/
inductive Error where
  | Io : Error
  | Csv : Error
  | InvalidScreenNamesRecord : List String → Error
  | InvalidSuspensionsRecord : List String → Error
deriving DecidableEq

/-- Outcome of a computation that may abort the process: `panic` covers
out-of-bounds `csv::StringRecord` indexing, `Result::unwrap`, and the
`unwrap` inside `TimeZone::timestamp` on out-of-range seconds, all of
which kill the process instead of returning a structured `Error`. -/
inductive RowOutcome (α : Type) where
  | panic : RowOutcome α
  | error : Error → RowOutcome α
  | ok : α → RowOutcome α
deriving DecidableEq

/-! ## Typed records -/

/-- `struct ScreenNameRecord`. -/
structure ScreenNameRecord where
  timestamp : Int
  user_id : Nat
  verified : Bool
  «protected» : Bool
  followers_count : Nat
  previous_screen_name : String
  new_screen_name : String
  profile_image_url : String
deriving DecidableEq

/-- `struct SuspensionRecord`. -/
structure SuspensionRecord where
  timestamp : Int
  reversal : Option Int
  user_id : Nat
  created_at : Int
  screen_name : String
  verified : Bool
  «protected» : Bool
  followers_count : Nat
  profile_image_url : String
deriving DecidableEq

/-- `impl TryFrom<csv::StringRecord> for ScreenNameRecord`: exactly 8 fields;
evaluating `value[0].parse::<i64>().map(|s| Utc.timestamp(s, 0))` panics
when the parsed seconds are outside chrono's range; otherwise the five
typed fields must parse, the three text fields are taken verbatim, and a
failed field yields `InvalidScreenNamesRecord` carrying the raw row. -/
def ScreenNameRecord.try_from (value : List String) : RowOutcome ScreenNameRecord :=
  if value.length = 8 then
    if tsPanics (value.getD 0 "") then .panic
    else
      match parseI64 (value.getD 0 ""), parseU64 (value.getD 1 ""),
            parseBool (value.getD 2 ""), parseBool (value.getD 3 ""),
            parseUsize (value.getD 4 "") with
      | some ts, some uid, some v, some p, some fc =>
        .ok { timestamp := ts, user_id := uid, verified := v, «protected» := p,
              followers_count := fc,
              previous_screen_name := value.getD 5 "",
              new_screen_name := value.getD 6 "",
              profile_image_url := value.getD 7 "" }
      | _, _, _, _, _ => .error (.InvalidScreenNamesRecord value)
  else .error (.InvalidScreenNamesRecord value)

/-- Whether building a `SuspensionRecord` panics inside `Utc.timestamp`:
the zip chain of `TryFrom` eagerly evaluates the detection (field 0),
reversal (field 1, when non-empty) and creation (field 3) timestamp
expressions before the all-or-nothing `ok_or_else` check, so any of them
parsing as `i64` outside chrono's range aborts the process even when
another field has already failed its grammar. -/
def suspTsPanics (value : List String) : Bool :=
  tsPanics (value.getD 0 "") ||
    (!(value.getD 1 "" == "") && tsPanics (value.getD 1 "")) ||
    tsPanics (value.getD 3 "")

/-- `impl TryFrom<csv::StringRecord> for SuspensionRecord`: exactly 9 fields;
a timestamp field parsing outside chrono's range panics (see
`suspTsPanics`); field 1 (reversal) may be empty, meaning `None`, else it
must parse as `i64`; the grammar-failure branch reuses the
`InvalidScreenNamesRecord` constructor (as in the source), while the
wrong-field-count branch uses `InvalidSuspensionsRecord`. -/
def SuspensionRecord.try_from (value : List String) : RowOutcome SuspensionRecord :=
  if value.length = 9 then
    if suspTsPanics value then .panic
    else
      match parseI64 (value.getD 0 ""),
            (if value.getD 1 "" = "" then some none
             else (parseI64 (value.getD 1 "")).map some),
            parseU64 (value.getD 2 ""), parseI64 (value.getD 3 ""),
            parseBool (value.getD 5 ""), parseBool (value.getD 6 ""),
            parseUsize (value.getD 7 "") with
      | some ts, some rev, some uid, some created, some v, some p, some fc =>
        .ok { timestamp := ts, reversal := rev, user_id := uid,
              created_at := created, screen_name := value.getD 4 "",
              verified := v, «protected» := p, followers_count := fc,
              profile_image_url := value.getD 8 "" }
      | _, _, _, _, _, _, _ => .error (.InvalidScreenNamesRecord value)
  else .error (.InvalidSuspensionsRecord value)

/-! ## Row processing for the suspensions loop

The loop body indexes `csv_record[3]` (panics when the row has fewer than
4 fields) and, on the unknown-identity sentinel path, evaluates
`Utc.timestamp(csv_record[0].parse::<i64>().unwrap(), 0)` (panics when
field 0 is not a valid `i64`, and again when the parsed seconds are
outside chrono's range). -/

/-- Body of the suspensions input loop: sentinel interception on an empty
field 3, else the strict `SuspensionRecord::try_from` parse.  Returns the
pushed `Option<SuspensionRecord>` together with its bucket date. -/
def processSuspensionRow (row : List String) : RowOutcome (Option SuspensionRecord × Int) :=
  if row.length < 4 then .panic
  else if row.getD 3 "" = "" then
    match parseI64 (row.getD 0 "") with
    | none => .panic
    | some t => if tsValid t then .ok (none, dayOf t) else .panic
  else
    match SuspensionRecord.try_from row with
    | .panic => .panic
    | .error e => .error e
    | .ok r => .ok (some r, dayOf r.timestamp)

/-! ## Grouping and ranking -/

/-- The distinct elements of a list, in order of first occurrence: the key
set of the `HashMap` built by `entry(date).or_default()`. -/
def keysOf : List Int → List Int
  | [] => []
  | d :: t => d :: (keysOf t).filter (fun x => x ≠ d)

/-- Group a list by an `Int` key.  Each key's group is the subsequence of
elements with that key in input order, exactly the `Vec` built by repeated
`push` into the `HashMap` entry.  (The `HashMap` yields its entries in an
arbitrary order; every pipeline below sorts the groups by key immediately,
so first-occurrence order is an equivalent model.) -/
def groupByDate (f : α → Int) (l : List α) : List (Int × List α) :=
  (keysOf (l.map f)).map (fun d => (d, l.filter (fun x => f x = d)))

/-- Within-bucket order of `sort_by_key(|r| (Reverse(r.followers_count), r.user_id))`
for screen-name records: descending followers, ties ascending by user id. -/
def snLE (a b : ScreenNameRecord) : Prop :=
  b.followers_count < a.followers_count ∨
    (a.followers_count = b.followers_count ∧ a.user_id ≤ b.user_id)

instance : DecidableRel snLE := fun a b =>
  inferInstanceAs (Decidable (_ ∨ _))

/-- The same key order for suspension records. -/
def suspLE (a b : SuspensionRecord) : Prop :=
  b.followers_count < a.followers_count ∨
    (a.followers_count = b.followers_count ∧ a.user_id ≤ b.user_id)

instance : DecidableRel suspLE := fun a b =>
  inferInstanceAs (Decidable (_ ∨ _))

/-- Bucket order of `sort_by_key(|(date, ..)| Reverse(*date))`:
descending by date. -/
def dateGE {β : Type} (a b : Int × β) : Prop := b.1 ≤ a.1

instance {β : Type} : DecidableRel (dateGE (β := β)) := fun a b =>
  inferInstanceAs (Decidable (_ ≤ _))

instance : IsTotal ScreenNameRecord snLE where
  total a b := by
    unfold snLE
    rcases Nat.lt_trichotomy a.followers_count b.followers_count with h | h | h
    · exact Or.inr (Or.inl h)
    · rcases Nat.le_total a.user_id b.user_id with h' | h'
      · exact Or.inl (Or.inr ⟨h, h'⟩)
      · exact Or.inr (Or.inr ⟨h.symm, h'⟩)
    · exact Or.inl (Or.inl h)

instance : IsTrans ScreenNameRecord snLE where
  trans a b c hab hbc := by
    unfold snLE at *
    rcases hab with h1 | ⟨h1, h1'⟩ <;> rcases hbc with h2 | ⟨h2, h2'⟩
    · exact Or.inl (h2.trans h1)
    · exact Or.inl (h2 ▸ h1)
    · exact Or.inl (h1 ▸ h2)
    · exact Or.inr ⟨h1.trans h2, h1'.trans h2'⟩

instance : IsTotal SuspensionRecord suspLE where
  total a b := by
    unfold suspLE
    rcases Nat.lt_trichotomy a.followers_count b.followers_count with h | h | h
    · exact Or.inr (Or.inl h)
    · rcases Nat.le_total a.user_id b.user_id with h' | h'
      · exact Or.inl (Or.inr ⟨h, h'⟩)
      · exact Or.inr (Or.inr ⟨h.symm, h'⟩)
    · exact Or.inl (Or.inl h)

instance : IsTrans SuspensionRecord suspLE where
  trans a b c hab hbc := by
    unfold suspLE at *
    rcases hab with h1 | ⟨h1, h1'⟩ <;> rcases hbc with h2 | ⟨h2, h2'⟩
    · exact Or.inl (h2.trans h1)
    · exact Or.inl (h2 ▸ h1)
    · exact Or.inl (h1 ▸ h2)
    · exact Or.inr ⟨h1.trans h2, h1'.trans h2'⟩

instance {β : Type} : IsTotal (Int × β) dateGE where
  total a b := Int.le_total b.1 a.1

instance {β : Type} : IsTrans (Int × β) dateGE where
  trans _ _ _ hab hbc := le_trans hbc hab

/-- Finalized screen-name buckets: group by detection date, sort each group
by `(Reverse(followers_count), user_id)`, then sort the buckets by
`Reverse(date)`. -/
def dateRecordsSN (records : List ScreenNameRecord) : List (Int × List ScreenNameRecord) :=
  List.insertionSort dateGE
    ((groupByDate (fun r => dayOf r.timestamp) records).map
      (fun p => (p.1, List.insertionSort snLE p.2)))

/-- Finalized suspension buckets `(date, ranked records, unknown_count)`:
the pushed values are `Option<SuspensionRecord>` paired with their date;
per bucket, `unknown_count` counts the `None`s, the `Some`s are ranked. -/
def dateRecordsSusp (prs : List (Option SuspensionRecord × Int)) :
    List (Int × (List SuspensionRecord × Nat)) :=
  List.insertionSort dateGE
    ((groupByDate Prod.snd prs).map
      (fun p =>
        (p.1,
         (List.insertionSort suspLE ((p.2.map Prod.fst).filterMap id),
          ((p.2.map Prod.fst).filter Option.isNone).length))))

/-! ## Report rendering (structured model of the emitted sections) -/

/-- One rendered screen-name section: the `## date` heading, the
"Found N screen name changes, with M included here." line, and the table
rows (records, in rendered order). -/
structure SNSection where
  date : Int
  found : Nat
  included : Nat
  rows : List ScreenNameRecord
deriving DecidableEq

/-- The screen-name report: the contents index (date, total count per
entry) and the per-date sections. -/
structure SNReport where
  contents : List (Int × Nat)
  sections : List SNSection
deriving DecidableEq

/-- Render the screen-name report from the finalized buckets: the contents
index and the sections both walk `date_records.take(REPORTED_LIMIT)`; the
summary line counts records meeting the cutoff by `filter`, the table rows
are produced by `take_while`. -/
def renderScreenNames (records : List ScreenNameRecord) : SNReport :=
  let dr := dateRecordsSN records
  { contents := (dr.take REPORTED_LIMIT).map (fun p => (p.1, p.2.length)),
    sections := (dr.take REPORTED_LIMIT).map (fun p =>
      { date := p.1,
        found := p.2.length,
        included :=
          (p.2.filter
            (fun r => SCREEN_NAMES_FOLLOWERS_COUNT_LIMIT ≤ r.followers_count)).length,
        rows := p.2.takeWhile
          (fun r => SCREEN_NAMES_FOLLOWERS_COUNT_LIMIT ≤ r.followers_count) }) }

/-- One rendered suspensions section. -/
structure SuspSection where
  date : Int
  found : Nat
  included : Nat
  rows : List SuspensionRecord
deriving DecidableEq

/-- The suspensions report. -/
structure SuspReport where
  contents : List (Int × Nat)
  sections : List SuspSection
deriving DecidableEq

/-- Render the suspensions report: the contents entry and the "Found N
suspensions" line both report `records.len() + unknown_count`; the summary
`M` counts ranked records meeting the cutoff; rows are `take_while`. -/
def renderSuspensions (prs : List (Option SuspensionRecord × Int)) : SuspReport :=
  let dr := dateRecordsSusp prs
  { contents := (dr.take REPORTED_LIMIT).map (fun b => (b.1, b.2.1.length + b.2.2)),
    sections := (dr.take REPORTED_LIMIT).map (fun b =>
      { date := b.1,
        found := b.2.1.length + b.2.2,
        included :=
          (b.2.1.filter
            (fun r => SUSPENSIONS_FOLLOWERS_COUNT_LIMIT ≤ r.followers_count)).length,
        rows := b.2.1.takeWhile
          (fun r => SUSPENSIONS_FOLLOWERS_COUNT_LIMIT ≤ r.followers_count) }) }

/-! ## End-to-end pipelines

The input stream is the sequence of `data.records()` results: each element
is either a CSV structural error or a raw row.  Both loops run to
completion (propagating the first failure with `?`) before any grouping or
printing happens. -/

/-- The screen-name input loop: convert every row in order, short-circuiting
on the first CSV error, conversion failure or panic. -/
def parseAllSN : List (Except Error (List String)) → RowOutcome (List ScreenNameRecord)
  | [] => .ok []
  | .error e :: _ => .error e
  | .ok raw :: rest =>
    match ScreenNameRecord.try_from raw with
    | .panic => .panic
    | .error e => .error e
    | .ok r =>
      match parseAllSN rest with
      | .panic => .panic
      | .error e => .error e
      | .ok rs => .ok (r :: rs)

/-- The full screen-names subcommand: read and parse everything, then
render; on any failure the error (or abort) is returned and nothing is
rendered. -/
def runScreenNames (stream : List (Except Error (List String))) : RowOutcome SNReport :=
  match parseAllSN stream with
  | .panic => .panic
  | .error e => .error e
  | .ok rs => .ok (renderScreenNames rs)

/-- The suspensions input loop, whose row body may also panic. -/
def parseAllSusp : List (Except Error (List String)) →
    RowOutcome (List (Option SuspensionRecord × Int))
  | [] => .ok []
  | .error e :: _ => .error e
  | .ok raw :: rest =>
    match processSuspensionRow raw with
    | .panic => .panic
    | .error e => .error e
    | .ok pr =>
      match parseAllSusp rest with
      | .panic => .panic
      | .error e => .error e
      | .ok prs => .ok (pr :: prs)

/-- The full suspensions subcommand. -/
def runSuspensions (stream : List (Except Error (List String))) : RowOutcome SuspReport :=
  match parseAllSusp stream with
  | .panic => .panic
  | .error e => .error e
  | .ok prs => .ok (renderSuspensions prs)

/-! ## Date formatting (`format("%Y-%m-%d")`) -/

/-- Civil date `(year, month, day)` of a day number (days since the
unix epoch), by the standard era/day-of-era computation. -/
def civilFromDays (z0 : Int) : Int × Int × Int :=
  let z := z0 + 719468
  let era := Int.fdiv z 146097
  let doe := z - era * 146097
  let yoe := Int.fdiv (doe - Int.fdiv doe 1460 + Int.fdiv doe 36524 - Int.fdiv doe 146096) 365
  let y := yoe + era * 400
  let doy := doe - (365 * yoe + Int.fdiv yoe 4 - Int.fdiv yoe 100)
  let mp := Int.fdiv (5 * doy + 2) 153
  let d := doy - Int.fdiv (153 * mp + 2) 5 + 1
  let m := mp + (if mp < 10 then 3 else -9)
  (y + (if m ≤ 2 then 1 else 0), m, d)

/-- Zero-pad a month or day to two digits. -/
def pad2 (n : Int) : String :=
  if 0 ≤ n ∧ n < 10 then "0" ++ toString n else toString n

/-- Zero-pad a natural number to four digits. -/
def pad4n (k : Nat) : String :=
  if k < 10 then "000" ++ toString k
  else if k < 100 then "00" ++ toString k
  else if k < 1000 then "0" ++ toString k
  else toString k

/-- Zero-pad a year to four digits, as chrono's `%Y` does. -/
def pad4 (n : Int) : String :=
  if n < 0 then "-" ++ pad4n (-n).toNat else pad4n n.toNat

/-- `value.format("%Y-%m-%d")` on the datetime of a unix timestamp. -/
def formatYMD (t : Int) : String :=
  let c := civilFromDays (dayOf t)
  pad4 c.1 ++ "-" ++ pad2 c.2.1 ++ "-" ++ pad2 c.2.2

/-- The rendered "Reversed" column:
`record.reversal.map(|v| format!(.., v.format("%Y-%m-%d"))).unwrap_or_default()`. -/
def renderReversal (o : Option Int) : String :=
  (o.map formatYMD).getD ""

/-! ## Thumbnail resolver (`make_profile_image_thumbnail_url`)

The regex `^https?://([^/]+)/profile_images/(\d+)/(.*)_normal(\.[a-zA-Z0-9-]+)?$`
is embedded as a deterministic matcher: each quantified piece of the
pattern is forced (a negated or digit class followed by the character it
excludes), except the greedy `(.*)`, which is resolved by scanning split
positions from the longest candidate downward, exactly the regex engine's
leftmost-first preference.  The filesystem probe `base.join(path).exists()`
is the oracle `fs`. -/

/-- The codepoint ranges of Unicode's `Nd` (decimal number) general
category, the class the rust regex crate's `\d` matches (Unicode-aware by
default); every `Nd` block is a contiguous run of digits.  Table as of
Unicode 15.0, the version shipped with the regex crate. -/
def ndRanges : List (Nat × Nat) :=
  [(0x0030, 0x0039), (0x0660, 0x0669), (0x06F0, 0x06F9), (0x07C0, 0x07C9),
   (0x0966, 0x096F), (0x09E6, 0x09EF), (0x0A66, 0x0A6F), (0x0AE6, 0x0AEF),
   (0x0B66, 0x0B6F), (0x0BE6, 0x0BEF), (0x0C66, 0x0C6F), (0x0CE6, 0x0CEF),
   (0x0D66, 0x0D6F), (0x0DE6, 0x0DEF), (0x0E50, 0x0E59), (0x0ED0, 0x0ED9),
   (0x0F20, 0x0F29), (0x1040, 0x1049), (0x1090, 0x1099), (0x17E0, 0x17E9),
   (0x1810, 0x1819), (0x1946, 0x194F), (0x19D0, 0x19D9), (0x1A80, 0x1A89),
   (0x1A90, 0x1A99), (0x1B50, 0x1B59), (0x1BB0, 0x1BB9), (0x1C40, 0x1C49),
   (0x1C50, 0x1C59), (0xA620, 0xA629), (0xA8D0, 0xA8D9), (0xA900, 0xA909),
   (0xA9D0, 0xA9D9), (0xA9F0, 0xA9F9), (0xAA50, 0xAA59), (0xABF0, 0xABF9),
   (0xFF10, 0xFF19), (0x104A0, 0x104A9), (0x10D30, 0x10D39),
   (0x11066, 0x1106F), (0x110F0, 0x110F9), (0x11136, 0x1113F),
   (0x111D0, 0x111D9), (0x112F0, 0x112F9), (0x11450, 0x11459),
   (0x114D0, 0x114D9), (0x11650, 0x11659), (0x116C0, 0x116C9),
   (0x11730, 0x11739), (0x118E0, 0x118E9), (0x11950, 0x11959),
   (0x11C50, 0x11C59), (0x11D50, 0x11D59), (0x11DA0, 0x11DA9),
   (0x11F50, 0x11F59), (0x16A60, 0x16A69), (0x16AC0, 0x16AC9),
   (0x16B50, 0x16B59), (0x1D7CE, 0x1D7FF), (0x1E140, 0x1E149),
   (0x1E2F0, 0x1E2F9), (0x1E4F0, 0x1E4F9), (0x1E950, 0x1E959),
   (0x1FBF0, 0x1FBF9)]

/-- The regex class `\d`, i.e. Unicode `\p{Nd}`. -/
def isNd (c : Char) : Bool :=
  ndRanges.any (fun p => p.1 ≤ c.toNat && c.toNat ≤ p.2)

/-- Characters of the extension class `[a-zA-Z0-9-]`. -/
def isExtChar (c : Char) : Bool := c.isAlphanum ∨ c = '-'

/-- Match a capture for the tail group `(\.[a-zA-Z0-9-]+)?$` against the
remainder of the input: `some none` when the group is absent (remainder
empty), `some (some ext)` when the group matches the whole remainder. -/
def extGroup (b : List Char) : Option (Option (List Char)) :=
  match b with
  | [] => some none
  | '.' :: cs => if cs ≠ [] ∧ cs.all isExtChar then some (some ('.' :: cs)) else none
  | _ => none

/-- Try the split of the basename tail at position `i`:
`(.*)` captures the first `i` characters (which must exclude newlines,
as `.` does), then the literal `_normal`, then the optional extension. -/
def checkAt (T : List Char) (i : Nat) : Option (List Char × Option (List Char)) :=
  if (T.take i).all (fun c => c ≠ '\n') ∧ (T.drop i).take 7 = "_normal".data then
    (extGroup ((T.drop i).drop 7)).map (fun e => (T.take i, e))
  else none

/-- Scan split positions from `i` downward: the greedy `(.*)` takes the
longest prefix that lets the rest of the pattern match. -/
def findFrom (T : List Char) : Nat → Option (List Char × Option (List Char))
  | 0 => checkAt T 0
  | i + 1 =>
    match checkAt T (i + 1) with
    | some r => some r
    | none => findFrom T i

/-- Strip a literal prefix. -/
def stripPrefix (p : List Char) (cs : List Char) : Option (List Char) :=
  if (cs.take p.length) = p then some (cs.drop p.length) else none

/-- Full match of the avatar-URL regex, returning the captures
`(host, id, basename, extension?)`. -/
def parseProfileUrl (s : String) : Option (String × String × String × Option String) :=
  match stripPrefix "http".data s.data with
  | none => none
  | some cs1 =>
    let cs2opt :=
      match stripPrefix "s://".data cs1 with
      | some r => some r
      | none => stripPrefix "://".data cs1
    match cs2opt with
    | none => none
    | some cs2 =>
      let host := cs2.takeWhile (fun c => c ≠ '/')
      let r1 := cs2.dropWhile (fun c => c ≠ '/')
      if host = [] then none
      else
        match stripPrefix "/profile_images/".data r1 with
        | none => none
        | some r2 =>
          let ds := r2.takeWhile isNd
          let r3 := r2.dropWhile isNd
          if ds = [] then none
          else
            match r3 with
            | '/' :: tail =>
              match findFrom tail tail.length with
              | some (name, ext) =>
                some (host.asString, ds.asString, name.asString, ext.map List.asString)
              | none => none
            | _ => none

/-- `make_profile_image_thumbnail_url`: on a regex match, `captures.get(2)`,
`get(3)` and `get(4)` are zipped — so a missing extension group makes the
whole `and_then` yield `None` — then the candidate path is kept only if it
exists; otherwise the original URL is returned. -/
def make_profile_image_thumbnail_url (fs : String → Bool) (url : String) : String :=
  match parseProfileUrl url with
  | some (_, id, name, some ext) =>
    let path := "./thumbnails/" ++ id ++ "-" ++ name ++ "_400x400" ++ ext
    if fs path then path else url
  | _ => url

/-! ## Helper lemmas -/

/-- On a list sorted by `r`, a predicate that is inherited backwards along
`r` makes `takeWhile` and `filter` agree. -/
theorem takeWhile_eq_filter_of_sorted {α : Type} {r : α → α → Prop} {p : α → Bool}
    (hmono : ∀ a b, r a b → p b = true → p a = true) :
    ∀ {l : List α}, l.Sorted r → l.takeWhile p = l.filter p := by
  intro l
  induction l with
  | nil => intro _; rfl
  | cons a t ih =>
    intro h
    rcases List.sorted_cons.mp h with ⟨ha, ht⟩
    by_cases hp : p a = true
    · rw [List.takeWhile_cons_of_pos hp, List.filter_cons_of_pos hp, ih ht]
    · rw [List.takeWhile_cons_of_neg hp, List.filter_cons_of_neg hp]
      symm
      rw [List.filter_eq_nil_iff]
      intro b hb hpb
      exact hp (hmono a b (ha b hb) hpb)

/-- The follower-count cutoff predicate is inherited backwards along the
screen-name ranking order. -/
theorem snLE_cutoff_mono (c : Nat) : ∀ a b : ScreenNameRecord, snLE a b →
    decide (c ≤ b.followers_count) = true → decide (c ≤ a.followers_count) = true := by
  intro a b hab hb
  simp only [decide_eq_true_eq] at *
  rcases hab with h | ⟨h, _⟩
  · exact hb.trans h.le
  · exact h ▸ hb

/-- The follower-count cutoff predicate is inherited backwards along the
suspension ranking order. -/
theorem suspLE_cutoff_mono (c : Nat) : ∀ a b : SuspensionRecord, suspLE a b →
    decide (c ≤ b.followers_count) = true → decide (c ≤ a.followers_count) = true := by
  intro a b hab hb
  simp only [decide_eq_true_eq] at *
  rcases hab with h | ⟨h, _⟩
  · exact hb.trans h.le
  · exact h ▸ hb

/-- Shape of a screen-name bucket: its record list is the date's filtered
subsequence of the input, sorted by the ranking order. -/
theorem mem_dateRecordsSN {records : List ScreenNameRecord} {b : Int × List ScreenNameRecord}
    (hb : b ∈ dateRecordsSN records) :
    b.2 = List.insertionSort snLE
      (records.filter (fun x => dayOf x.timestamp = b.1)) := by
  unfold dateRecordsSN at hb
  rw [List.mem_insertionSort] at hb
  rcases List.mem_map.mp hb with ⟨p, hp, rfl⟩
  rcases List.mem_map.mp hp with ⟨d, _, rfl⟩
  rfl

/-- Every screen-name bucket is sorted by the ranking order. -/
theorem sorted_of_mem_dateRecordsSN {records : List ScreenNameRecord}
    {b : Int × List ScreenNameRecord} (hb : b ∈ dateRecordsSN records) :
    b.2.Sorted snLE := by
  rw [mem_dateRecordsSN hb]
  exact List.sorted_insertionSort snLE _

/-- Shape of a suspension bucket: ranked records and unknown count both
come from the date's filtered subsequence of the pushed values. -/
theorem mem_dateRecordsSusp {prs : List (Option SuspensionRecord × Int)}
    {b : Int × List SuspensionRecord × Nat} (hb : b ∈ dateRecordsSusp prs) :
    b.2.1 = List.insertionSort suspLE
        (((prs.filter (fun x => x.2 = b.1)).map Prod.fst).filterMap id) ∧
    b.2.2 = (((prs.filter (fun x => x.2 = b.1)).map Prod.fst).filter Option.isNone).length := by
  unfold dateRecordsSusp at hb
  rw [List.mem_insertionSort] at hb
  rcases List.mem_map.mp hb with ⟨p, hp, rfl⟩
  rcases List.mem_map.mp hp with ⟨d, _, rfl⟩
  exact ⟨rfl, rfl⟩

/-- Every suspension bucket's ranked list is sorted by the ranking order. -/
theorem sorted_of_mem_dateRecordsSusp {prs : List (Option SuspensionRecord × Int)}
    {b : Int × List SuspensionRecord × Nat} (hb : b ∈ dateRecordsSusp prs) :
    b.2.1.Sorted suspLE := by
  rw [(mem_dateRecordsSusp hb).1]
  exact List.sorted_insertionSort suspLE _

/-! ## Claims -/

/-- C1: in both report kinds, the rendered table rows (ranked records
truncated at the first one below the cutoff) are exactly the records with
`followers_count ≥ cutoff`, appear as a prefix of the sorted bucket, and
their number is the "with M included here" count obtained by filtering the
full bucket by the cutoff. -/
theorem rendered_rows_eq_filter :
    (∀ (records : List ScreenNameRecord) (b : Int × List ScreenNameRecord),
       b ∈ dateRecordsSN records →
         b.2.takeWhile (fun r => SCREEN_NAMES_FOLLOWERS_COUNT_LIMIT ≤ r.followers_count) =
           b.2.filter (fun r => SCREEN_NAMES_FOLLOWERS_COUNT_LIMIT ≤ r.followers_count) ∧
         b.2.takeWhile (fun r => SCREEN_NAMES_FOLLOWERS_COUNT_LIMIT ≤ r.followers_count) <+: b.2) ∧
    (∀ (records : List ScreenNameRecord) (s : SNSection),
       s ∈ (renderScreenNames records).sections → s.rows.length = s.included) ∧
    (∀ (prs : List (Option SuspensionRecord × Int)) (b : Int × List SuspensionRecord × Nat),
       b ∈ dateRecordsSusp prs →
         b.2.1.takeWhile (fun r => SUSPENSIONS_FOLLOWERS_COUNT_LIMIT ≤ r.followers_count) =
           b.2.1.filter (fun r => SUSPENSIONS_FOLLOWERS_COUNT_LIMIT ≤ r.followers_count) ∧
         b.2.1.takeWhile (fun r => SUSPENSIONS_FOLLOWERS_COUNT_LIMIT ≤ r.followers_count) <+: b.2.1) ∧
    (∀ (prs : List (Option SuspensionRecord × Int)) (s : SuspSection),
       s ∈ (renderSuspensions prs).sections → s.rows.length = s.included) := by
  refine ⟨?_, ?_, ?_, ?_⟩
  · intro records b hb
    exact ⟨takeWhile_eq_filter_of_sorted
            (snLE_cutoff_mono SCREEN_NAMES_FOLLOWERS_COUNT_LIMIT)
            (sorted_of_mem_dateRecordsSN hb),
           List.takeWhile_prefix _⟩
  · intro records s hs
    rcases List.mem_map.mp hs with ⟨p, hp, rfl⟩
    have hpm : p ∈ dateRecordsSN records := List.take_subset _ _ hp
    simp only []
    rw [takeWhile_eq_filter_of_sorted
        (snLE_cutoff_mono SCREEN_NAMES_FOLLOWERS_COUNT_LIMIT)
        (sorted_of_mem_dateRecordsSN hpm)]
  · intro prs b hb
    exact ⟨takeWhile_eq_filter_of_sorted
            (suspLE_cutoff_mono SUSPENSIONS_FOLLOWERS_COUNT_LIMIT)
            (sorted_of_mem_dateRecordsSusp hb),
           List.takeWhile_prefix _⟩
  · intro prs s hs
    rcases List.mem_map.mp hs with ⟨p, hp, rfl⟩
    have hpm : p ∈ dateRecordsSusp prs := List.take_subset _ _ hp
    simp only []
    rw [takeWhile_eq_filter_of_sorted
        (suspLE_cutoff_mono SUSPENSIONS_FOLLOWERS_COUNT_LIMIT)
        (sorted_of_mem_dateRecordsSusp hpm)]

/-- Witness for C1 at a concrete one-record input. -/
theorem rendered_rows_eq_filter_witness :
    ((0 : Int), [(⟨0, 1, false, false, 300, "p", "n", "u"⟩ : ScreenNameRecord)]).2.takeWhile
        (fun r => SCREEN_NAMES_FOLLOWERS_COUNT_LIMIT ≤ r.followers_count) =
      ((0 : Int), [(⟨0, 1, false, false, 300, "p", "n", "u"⟩ : ScreenNameRecord)]).2.filter
        (fun r => SCREEN_NAMES_FOLLOWERS_COUNT_LIMIT ≤ r.followers_count) :=
  (rendered_rows_eq_filter.1 [⟨0, 1, false, false, 300, "p", "n", "u"⟩] _ (by decide)).1

/-- C2: every finalized bucket (and every rendered row list) is sorted
descending by follower count with ties broken ascending by user id; the
concrete scenario with follower counts 1000/1000 and user ids 5/3 renders
user id 3 first. -/
theorem bucket_sort_order :
    (∀ (records : List ScreenNameRecord) (b : Int × List ScreenNameRecord),
       b ∈ dateRecordsSN records → b.2.Sorted snLE) ∧
    (∀ (records : List ScreenNameRecord) (s : SNSection),
       s ∈ (renderScreenNames records).sections → s.rows.Sorted snLE) ∧
    (∀ (prs : List (Option SuspensionRecord × Int)) (b : Int × List SuspensionRecord × Nat),
       b ∈ dateRecordsSusp prs → b.2.1.Sorted suspLE) ∧
    (∀ (prs : List (Option SuspensionRecord × Int)) (s : SuspSection),
       s ∈ (renderSuspensions prs).sections → s.rows.Sorted suspLE) ∧
    ((renderScreenNames
        [⟨1609459200, 5, true, false, 1000, "a", "b", "u"⟩,
         ⟨1609459200, 3, true, false, 1000, "c", "d", "v"⟩]).sections.map
        (fun s => s.rows.map (fun r => r.user_id)) = [[3, 5]]) := by
  refine ⟨?_, ?_, ?_, ?_, by decide⟩
  · intro records b hb
    exact sorted_of_mem_dateRecordsSN hb
  · intro records s hs
    rcases List.mem_map.mp hs with ⟨p, hp, rfl⟩
    have hpm : p ∈ dateRecordsSN records := List.take_subset _ _ hp
    exact List.Pairwise.sublist (List.takeWhile_prefix _).sublist
      (sorted_of_mem_dateRecordsSN hpm)
  · intro prs b hb
    exact sorted_of_mem_dateRecordsSusp hb
  · intro prs s hs
    rcases List.mem_map.mp hs with ⟨p, hp, rfl⟩
    have hpm : p ∈ dateRecordsSusp prs := List.take_subset _ _ hp
    exact List.Pairwise.sublist (List.takeWhile_prefix _).sublist
      (sorted_of_mem_dateRecordsSusp hpm)

/-- Witness for C2 at a concrete two-record input. -/
theorem bucket_sort_order_witness :
    ((18628 : Int),
      [(⟨1609459200, 3, true, false, 1000, "c", "d", "v"⟩ : ScreenNameRecord),
       ⟨1609459200, 5, true, false, 1000, "a", "b", "u"⟩]).2.Sorted snLE :=
  bucket_sort_order.1
    [⟨1609459200, 5, true, false, 1000, "a", "b", "u"⟩,
     ⟨1609459200, 3, true, false, 1000, "c", "d", "v"⟩] _ (by decide)

/-- C3: the finalized bucket sequence is ordered descending by date and at
most `REPORTED_LIMIT = 10` buckets appear in the contents index and as
rendered sections; the rendered sections are exactly the first 10 buckets,
so later buckets are dropped. -/
theorem bucket_order_and_limit :
    ∀ (records : List ScreenNameRecord) (prs : List (Option SuspensionRecord × Int)),
      (dateRecordsSN records).Sorted dateGE ∧
      (dateRecordsSusp prs).Sorted dateGE ∧
      (renderScreenNames records).contents.length ≤ REPORTED_LIMIT ∧
      (renderScreenNames records).sections.length ≤ REPORTED_LIMIT ∧
      (renderSuspensions prs).contents.length ≤ REPORTED_LIMIT ∧
      (renderSuspensions prs).sections.length ≤ REPORTED_LIMIT ∧
      (renderScreenNames records).sections.map SNSection.date =
        ((dateRecordsSN records).take REPORTED_LIMIT).map Prod.fst ∧
      (renderScreenNames records).contents.map Prod.fst =
        ((dateRecordsSN records).take REPORTED_LIMIT).map Prod.fst ∧
      (renderSuspensions prs).sections.map SuspSection.date =
        ((dateRecordsSusp prs).take REPORTED_LIMIT).map Prod.fst ∧
      (renderSuspensions prs).contents.map Prod.fst =
        ((dateRecordsSusp prs).take REPORTED_LIMIT).map Prod.fst := by
  intro records prs
  refine ⟨List.sorted_insertionSort dateGE _, List.sorted_insertionSort dateGE _,
          ?_, ?_, ?_, ?_, ?_, ?_, ?_, ?_⟩
  all_goals
    first
    | (simp only [renderScreenNames, renderSuspensions, List.length_map,
          List.length_take]; omega)
    | (simp only [renderScreenNames, renderSuspensions, List.map_take,
          List.map_map]; rfl)

/-- Counting `None` entries of a date commutes with the grouping filter. -/
theorem count_none_filter (prs : List (Option SuspensionRecord × Int)) (d : Int) :
    (((prs.filter (fun x => decide (x.2 = d))).map Prod.fst).filter Option.isNone).length =
      (prs.filter (fun p => p.1.isNone && decide (p.2 = d))).length := by
  induction prs with
  | nil => rfl
  | cons a t ih =>
    obtain ⟨o, dt⟩ := a
    by_cases h2 : dt = d <;> cases o <;>
      simp [List.filter_cons, h2, ih]

/-- Counting `Some` entries of a date commutes with the grouping filter. -/
theorem count_some_filter (prs : List (Option SuspensionRecord × Int)) (d : Int) :
    (((prs.filter (fun x => decide (x.2 = d))).map Prod.fst).filterMap id).length =
      (prs.filter (fun p => p.1.isSome && decide (p.2 = d))).length := by
  induction prs with
  | nil => rfl
  | cons a t ih =>
    obtain ⟨o, dt⟩ := a
    simp only [List.filterMap_map, Function.id_comp] at ih ⊢
    by_cases h2 : dt = d <;> cases o <;>
      simp [List.filter_cons, h2, ih]

/-- A parse result whose value is inside chrono's range never panics in
`Utc.timestamp`. -/
theorem tsPanics_eq_false {s : String} {t : Int}
    (h : parseI64 s = some t) (hv : tsValid t = true) : tsPanics s = false := by
  simp [tsPanics, h, hv]

/-- A field that fails the `i64` grammar never reaches `Utc.timestamp`. -/
theorem tsPanics_of_none {s : String} (h : parseI64 s = none) : tsPanics s = false := by
  simp [tsPanics, h]

/-- C4 counterexample: a suspension row with an empty identity field whose
detection-timestamp field parses as an `i64` beyond chrono's range panics
inside `Utc.timestamp`, so it contributes to no date bucket at all. -/
theorem sentinel_out_of_range_counterexample :
    parseI64 "9000000000000000000" = some 9000000000000000000 ∧
    processSuspensionRow
        ["9000000000000000000", "", "1", "", "sn", "true", "false", "10", "u"] =
      .panic :=
  ⟨by decide, by decide⟩

/-- C4 (amended): a suspension row with an empty identity field (field 3)
whose detection-timestamp field parses to a chrono-representable instant
is an unknown-identity sentinel: it is pushed as `None` under its
detection date, so per bucket the unknown count is the number of sentinels
of that date and the ranked list holds only the full records of that date;
both the contents count and the "Found N suspensions" total are the
ranked-record count plus the unknown count.  A sentinel row whose parsed
detection timestamp is outside chrono's range panics instead. -/
theorem unknown_identity_accounting :
    (∀ (row : List String) (t : Int),
       4 ≤ row.length → row.getD 3 "" = "" → parseI64 (row.getD 0 "") = some t →
       tsValid t = true →
       processSuspensionRow row = .ok (none, dayOf t)) ∧
    (∀ (row : List String) (t : Int),
       4 ≤ row.length → row.getD 3 "" = "" → parseI64 (row.getD 0 "") = some t →
       tsValid t = false →
       processSuspensionRow row = .panic) ∧
    (∀ (prs : List (Option SuspensionRecord × Int)) (b : Int × List SuspensionRecord × Nat),
       b ∈ dateRecordsSusp prs →
         b.2.2 = (prs.filter (fun p => p.1.isNone && decide (p.2 = b.1))).length ∧
         b.2.1.length = (prs.filter (fun p => p.1.isSome && decide (p.2 = b.1))).length) ∧
    (∀ (prs : List (Option SuspensionRecord × Int)) (c : Int × Nat),
       c ∈ (renderSuspensions prs).contents →
         ∃ b ∈ (dateRecordsSusp prs).take REPORTED_LIMIT,
           c = (b.1, b.2.1.length + b.2.2)) ∧
    (∀ (prs : List (Option SuspensionRecord × Int)) (s : SuspSection),
       s ∈ (renderSuspensions prs).sections →
         ∃ b ∈ (dateRecordsSusp prs).take REPORTED_LIMIT,
           s.date = b.1 ∧ s.found = b.2.1.length + b.2.2) := by
  refine ⟨?_, ?_, ?_, ?_, ?_⟩
  · intro row t hlen h3 h0 hv
    unfold processSuspensionRow
    rw [if_neg (by omega), if_pos h3, h0]
    simp [hv]
  · intro row t hlen h3 h0 hv
    unfold processSuspensionRow
    rw [if_neg (by omega), if_pos h3, h0]
    simp [hv]
  · intro prs b hb
    obtain ⟨h1, h2⟩ := mem_dateRecordsSusp hb
    constructor
    · rw [h2, count_none_filter]
    · rw [h1, (List.perm_insertionSort suspLE _).length_eq, count_some_filter]
  · intro prs c hc
    rcases List.mem_map.mp hc with ⟨b, hbm, rfl⟩
    exact ⟨b, hbm, rfl⟩
  · intro prs s hs
    rcases List.mem_map.mp hs with ⟨b, hbm, rfl⟩
    exact ⟨b, hbm, rfl, rfl⟩

/-- Witness for C4: a concrete sentinel row with an in-range timestamp. -/
theorem unknown_identity_accounting_witness :
    processSuspensionRow ["0", "", "1", "", "sn", "true", "false", "10", "u"] =
      .ok (none, dayOf 0) :=
  unknown_identity_accounting.1 ["0", "", "1", "", "sn", "true", "false", "10", "u"] 0
    (by decide) (by decide) (by decide) (by decide)

/-- `SuspensionRecord::try_from` panics, succeeds, or fails with one of
the two raw-row-retaining error constructors (the grammar branch reuses
`InvalidScreenNamesRecord`). -/
theorem suspension_try_from_cases (row : List String) :
    SuspensionRecord.try_from row = .panic ∨
    (∃ r, SuspensionRecord.try_from row = .ok r) ∨
    SuspensionRecord.try_from row = .error (.InvalidSuspensionsRecord row) ∨
    SuspensionRecord.try_from row = .error (.InvalidScreenNamesRecord row) := by
  unfold SuspensionRecord.try_from
  by_cases hl : row.length = 9
  · rw [if_pos hl]
    by_cases hp : suspTsPanics row = true
    · rw [if_pos hp]
      exact Or.inl rfl
    · rw [if_neg hp]
      split
      · exact Or.inr (Or.inl ⟨_, rfl⟩)
      · exact Or.inr (Or.inr (Or.inr rfl))
  · rw [if_neg hl]
    exact Or.inr (Or.inr (Or.inl rfl))

/-- On a 9-field row that avoids the timestamp panic,
`SuspensionRecord::try_from` either succeeds or rejects with the
raw-row-retaining grammar error. -/
theorem susp_ok_or_gram_error (value : List String) (h9 : value.length = 9)
    (hnp : suspTsPanics value = false) :
    (∃ r, SuspensionRecord.try_from value = .ok r) ∨
    SuspensionRecord.try_from value = .error (.InvalidScreenNamesRecord value) := by
  unfold SuspensionRecord.try_from
  rw [if_pos h9, if_neg (by simp [hnp])]
  split
  · exact Or.inl ⟨_, rfl⟩
  · exact Or.inr rfl

/-- Success characterization of `SuspensionRecord::try_from` on 9-field
rows that avoid the timestamp panic: exactly when every required field
satisfies its grammar (the reversal field may instead be empty). -/
theorem susp_ok_iff (value : List String) (h9 : value.length = 9)
    (hnp : suspTsPanics value = false) :
    (∃ r, SuspensionRecord.try_from value = .ok r) ↔
      ((parseI64 (value.getD 0 "")).isSome ∧
       (value.getD 1 "" = "" ∨ (parseI64 (value.getD 1 "")).isSome) ∧
       (parseU64 (value.getD 2 "")).isSome ∧
       (parseI64 (value.getD 3 "")).isSome ∧
       (parseBool (value.getD 5 "")).isSome ∧
       (parseBool (value.getD 6 "")).isSome ∧
       (parseUsize (value.getD 7 "")).isSome) := by
  have he : SuspensionRecord.try_from value =
      match parseI64 (value.getD 0 ""),
            (if value.getD 1 "" = "" then some none
             else (parseI64 (value.getD 1 "")).map some),
            parseU64 (value.getD 2 ""), parseI64 (value.getD 3 ""),
            parseBool (value.getD 5 ""), parseBool (value.getD 6 ""),
            parseUsize (value.getD 7 "") with
      | some ts, some rev, some uid, some created, some v, some p, some fc =>
        .ok { timestamp := ts, reversal := rev, user_id := uid,
              created_at := created, screen_name := value.getD 4 "",
              verified := v, «protected» := p, followers_count := fc,
              profile_image_url := value.getD 8 "" }
      | _, _, _, _, _, _, _ => .error (.InvalidScreenNamesRecord value) := by
    unfold SuspensionRecord.try_from
    rw [if_pos h9, if_neg (by simp [hnp])]
  rw [he]
  clear he
  by_cases h1 : value.getD 1 "" = ""
  · rw [if_pos h1]
    cases hp0 : parseI64 (value.getD 0 "") <;>
    cases hp2 : parseU64 (value.getD 2 "") <;>
    cases hp3 : parseI64 (value.getD 3 "") <;>
    cases hp5 : parseBool (value.getD 5 "") <;>
    cases hp6 : parseBool (value.getD 6 "") <;>
    cases hp7 : parseUsize (value.getD 7 "") <;>
      ((try simp only [h1]); simp)
  · rw [if_neg h1]
    cases hrev : parseI64 (value.getD 1 "") <;>
    cases hp0 : parseI64 (value.getD 0 "") <;>
    cases hp2 : parseU64 (value.getD 2 "") <;>
    cases hp3 : parseI64 (value.getD 3 "") <;>
    cases hp5 : parseBool (value.getD 5 "") <;>
    cases hp6 : parseBool (value.getD 6 "") <;>
    cases hp7 : parseUsize (value.getD 7 "") <;>
      ((try simp only [h1]); simp)

/-- C5 counterexample: a row with fewer than 4 fields panics on the
`csv_record[3]` index, and a sentinel row (empty field 3) whose
detection-timestamp field is not a valid integer panics on `unwrap`;
neither yields the structured `InvalidRecord` error the claim requires. -/
theorem suspension_row_panic_counterexample :
    processSuspensionRow ["a", "b", "c"] = .panic ∧
    processSuspensionRow ["notanint", "", "1", "", "sn", "true", "false", "10", "u"] =
      .panic := by
  exact ⟨by decide, by decide⟩

/-- C5 (amended): a suspension row reaching the strict parse path is
rejected with a structured error retaining the raw row —
`InvalidSuspensionsRecord` on a wrong field count and
`InvalidScreenNamesRecord` (the constructor the source reuses) on a
grammar failure — and a non-sentinel row that avoids the timestamp panic
never aborts in any other way; but a row with fewer than 4 fields panics
via out-of-bounds indexing, a sentinel row whose detection-timestamp field
is not a valid integer panics via `unwrap`, a sentinel row with a
grammar-valid but out-of-chrono-range timestamp panics in `Utc.timestamp`,
and so does a 9-field row any of whose timestamp fields parse outside
chrono's range. -/
theorem suspension_row_rejection_amended :
    ∀ row : List String,
      (row.length < 4 → processSuspensionRow row = .panic) ∧
      (4 ≤ row.length → row.getD 3 "" = "" → parseI64 (row.getD 0 "") = none →
        processSuspensionRow row = .panic) ∧
      (∀ t, 4 ≤ row.length → row.getD 3 "" = "" → parseI64 (row.getD 0 "") = some t →
        tsValid t = false → processSuspensionRow row = .panic) ∧
      (row.length ≠ 9 → 4 ≤ row.length → row.getD 3 "" ≠ "" →
        processSuspensionRow row = .error (.InvalidSuspensionsRecord row)) ∧
      (row.length = 9 → row.getD 3 "" ≠ "" → suspTsPanics row = false →
        (parseI64 (row.getD 0 "") = none ∨
         (row.getD 1 "" ≠ "" ∧ parseI64 (row.getD 1 "") = none) ∨
         parseU64 (row.getD 2 "") = none ∨ parseI64 (row.getD 3 "") = none ∨
         parseBool (row.getD 5 "") = none ∨ parseBool (row.getD 6 "") = none ∨
         parseUsize (row.getD 7 "") = none) →
        processSuspensionRow row = .error (.InvalidScreenNamesRecord row)) ∧
      (row.length = 9 → row.getD 3 "" ≠ "" → suspTsPanics row = true →
        processSuspensionRow row = .panic) := by
  intro row
  refine ⟨?_, ?_, ?_, ?_, ?_, ?_⟩
  · intro h
    unfold processSuspensionRow
    rw [if_pos h]
  · intro h4 h3 h0
    unfold processSuspensionRow
    rw [if_neg (by omega), if_pos h3, h0]
  · intro t h4 h3 h0 hv
    unfold processSuspensionRow
    rw [if_neg (by omega), if_pos h3, h0]
    simp [hv]
  · intro h9 h4 h3
    unfold processSuspensionRow
    rw [if_neg (by omega), if_neg h3]
    unfold SuspensionRecord.try_from
    rw [if_neg h9]
  · intro h9 h3 hnp hfail
    unfold processSuspensionRow
    rw [if_neg (by omega), if_neg h3]
    rcases susp_ok_or_gram_error row h9 hnp with ⟨r, hr⟩ | hr
    · exfalso
      have hc := (susp_ok_iff row h9 hnp).mp ⟨r, hr⟩
      rcases hfail with h | ⟨hne, h⟩ | h | h | h | h | h <;> simp_all
    · rw [hr]
  · intro h9 h3 hp
    unfold processSuspensionRow
    rw [if_neg (by omega), if_neg h3]
    unfold SuspensionRecord.try_from
    rw [if_pos h9, if_pos hp]

/-- Witness for the amended C5: a 9-field non-sentinel row whose reversal
field fails the integer grammar is rejected with the raw-row-retaining
grammar error. -/
theorem suspension_row_rejection_amended_witness :
    processSuspensionRow ["0", "x", "1", "1", "sn", "true", "false", "10", "u"] =
      .error (.InvalidScreenNamesRecord
        ["0", "x", "1", "1", "sn", "true", "false", "10", "u"]) :=
  (suspension_row_rejection_amended
      ["0", "x", "1", "1", "sn", "true", "false", "10", "u"]).2.2.2.2.1
    (by decide) (by decide) (by decide)
    (Or.inr (Or.inl ⟨by decide, by decide⟩))

/-- C7 counterexample: an 8-field row whose fields all satisfy their
numeric/boolean grammars but whose timestamp seconds exceed chrono's
range panics in `Utc.timestamp` — parsing neither succeeds nor returns
`InvalidRecord`, so the claimed iff fails. -/
theorem grammar_valid_timestamp_panic_counterexample :
    (["9999999999999", "1", "true", "false", "5", "a", "b", "c"].length = 8 ∧
     (parseI64 "9999999999999").isSome ∧ (parseU64 "1").isSome ∧
     (parseBool "true").isSome ∧ (parseBool "false").isSome ∧
     (parseUsize "5").isSome) ∧
    ScreenNameRecord.try_from
        ["9999999999999", "1", "true", "false", "5", "a", "b", "c"] = .panic :=
  ⟨by decide, by decide⟩

/-- C7 (amended): parsing a screen-name row succeeds iff it has exactly 8
fields, the five typed fields parse under their numeric/boolean grammars,
and the parsed timestamp is within chrono's representable range; on
success the typed fields carry the parsed values and the three text fields
are taken verbatim; a wrong field count or a grammar failure yields
`InvalidScreenNamesRecord` carrying the raw row, while a grammar-valid
timestamp outside chrono's range panics instead of erroring. -/
theorem screen_name_parse_iff :
    ∀ value : List String,
      ((∃ r, ScreenNameRecord.try_from value = .ok r) ↔
        (value.length = 8 ∧
         (∃ t, parseI64 (value.getD 0 "") = some t ∧ tsValid t = true) ∧
         (parseU64 (value.getD 1 "")).isSome ∧ (parseBool (value.getD 2 "")).isSome ∧
         (parseBool (value.getD 3 "")).isSome ∧ (parseUsize (value.getD 4 "")).isSome)) ∧
      (∀ r, ScreenNameRecord.try_from value = .ok r →
        parseI64 (value.getD 0 "") = some r.timestamp ∧
        parseU64 (value.getD 1 "") = some r.user_id ∧
        parseBool (value.getD 2 "") = some r.verified ∧
        parseBool (value.getD 3 "") = some r.«protected» ∧
        parseUsize (value.getD 4 "") = some r.followers_count ∧
        r.previous_screen_name = value.getD 5 "" ∧
        r.new_screen_name = value.getD 6 "" ∧
        r.profile_image_url = value.getD 7 "") ∧
      (value.length ≠ 8 →
        ScreenNameRecord.try_from value = .error (.InvalidScreenNamesRecord value)) ∧
      (value.length = 8 → tsPanics (value.getD 0 "") = true →
        ScreenNameRecord.try_from value = .panic) ∧
      (value.length = 8 → tsPanics (value.getD 0 "") = false →
        ¬ ((parseI64 (value.getD 0 "")).isSome ∧ (parseU64 (value.getD 1 "")).isSome ∧
           (parseBool (value.getD 2 "")).isSome ∧ (parseBool (value.getD 3 "")).isSome ∧
           (parseUsize (value.getD 4 "")).isSome) →
        ScreenNameRecord.try_from value = .error (.InvalidScreenNamesRecord value)) := by
  intro value
  by_cases h8 : value.length = 8
  · rcases hp0 : parseI64 (value.getD 0 "") with _ | t
    · have hts : tsPanics (value.getD 0 "") = false := tsPanics_of_none hp0
      have he : ScreenNameRecord.try_from value =
          match parseI64 (value.getD 0 ""), parseU64 (value.getD 1 ""),
                parseBool (value.getD 2 ""), parseBool (value.getD 3 ""),
                parseUsize (value.getD 4 "") with
          | some ts, some uid, some v, some p, some fc =>
            .ok { timestamp := ts, user_id := uid, verified := v, «protected» := p,
                  followers_count := fc,
                  previous_screen_name := value.getD 5 "",
                  new_screen_name := value.getD 6 "",
                  profile_image_url := value.getD 7 "" }
          | _, _, _, _, _ => .error (.InvalidScreenNamesRecord value) := by
        unfold ScreenNameRecord.try_from
        rw [if_pos h8, if_neg (by rw [hts]; decide)]
      rw [he, hp0]
      refine ⟨?_, ?_, ?_, ?_, ?_⟩ <;> ((try simp only [hts]); simp [h8])
    · cases hv : tsValid t
      · have hts : tsPanics (value.getD 0 "") = true := by
          unfold tsPanics
          rw [hp0]
          show (!tsValid t) = true
          rw [hv]
          decide
        have he : ScreenNameRecord.try_from value = .panic := by
          unfold ScreenNameRecord.try_from
          rw [if_pos h8, if_pos hts]
        rw [he]
        refine ⟨?_, ?_, ?_, ?_, ?_⟩ <;>
          ((try simp only [hp0, hts]); simp [h8, hv])
      · have hts : tsPanics (value.getD 0 "") = false := tsPanics_eq_false hp0 hv
        have he : ScreenNameRecord.try_from value =
            match parseI64 (value.getD 0 ""), parseU64 (value.getD 1 ""),
                  parseBool (value.getD 2 ""), parseBool (value.getD 3 ""),
                  parseUsize (value.getD 4 "") with
            | some ts, some uid, some v, some p, some fc =>
              .ok { timestamp := ts, user_id := uid, verified := v, «protected» := p,
                    followers_count := fc,
                    previous_screen_name := value.getD 5 "",
                    new_screen_name := value.getD 6 "",
                    profile_image_url := value.getD 7 "" }
            | _, _, _, _, _ => .error (.InvalidScreenNamesRecord value) := by
          unfold ScreenNameRecord.try_from
          rw [if_pos h8, if_neg (by rw [hts]; decide)]
        rw [he, hp0]
        cases hp1 : parseU64 (value.getD 1 "") <;>
        cases hp2 : parseBool (value.getD 2 "") <;>
        cases hp3 : parseBool (value.getD 3 "") <;>
        cases hp4 : parseUsize (value.getD 4 "") <;>
          (refine ⟨?_, ?_, ?_, ?_, ?_⟩ <;>
            ((try simp only [hp0, hts]); simp [h8, hv]))
  · have he : ScreenNameRecord.try_from value =
        .error (.InvalidScreenNamesRecord value) := by
      unfold ScreenNameRecord.try_from
      rw [if_neg h8]
    rw [he]
    refine ⟨?_, ?_, ?_, ?_, ?_⟩ <;> simp [h8]

/-- Witness for C7: a 7-field row is rejected with the raw row retained. -/
theorem screen_name_parse_iff_witness :
    ScreenNameRecord.try_from ["a", "b", "c", "d", "e", "f", "g"] =
      .error (.InvalidScreenNamesRecord ["a", "b", "c", "d", "e", "f", "g"]) :=
  (screen_name_parse_iff ["a", "b", "c", "d", "e", "f", "g"]).2.2.1 (by decide)

/-- C9 counterexample: a 9-field suspension row with an empty reversal
field whose other typed fields all satisfy their grammars does not parse
when the detection timestamp is beyond chrono's range — the program panics
in `Utc.timestamp` instead of succeeding with `reversal = none`. -/
theorem reversal_out_of_range_counterexample :
    ((parseI64 "9999999999999").isSome ∧ (parseU64 "42").isSome ∧
     (parseI64 "1500000000").isSome ∧ (parseBool "true").isSome ∧
     (parseBool "false").isSome ∧ (parseUsize "1000").isSome) ∧
    SuspensionRecord.try_from
        ["9999999999999", "", "42", "1500000000", "sn", "true", "false", "1000", "u"] =
      .panic :=
  ⟨by decide, by decide⟩

/-- C9 (amended): a 9-field suspension row with an empty reversal field
(field 1) parses with `reversal = none` whenever the other typed fields
parse and the detection and creation timestamps are within chrono's
representable range (outside it the program panics instead), and the
rendered "Reversed" column of a reversal-free record is the empty string;
a non-empty reversal field must parse as a unix timestamp, and a present
reversal renders through the `%Y-%m-%d` formatter. -/
theorem reversal_field_handling :
    (renderReversal none = "") ∧
    (∀ t : Int, renderReversal (some t) = formatYMD t) ∧
    (∀ value : List String, value.length = 9 → value.getD 1 "" = "" →
       ∀ r, SuspensionRecord.try_from value = .ok r → r.reversal = none) ∧
    (∀ value : List String, value.getD 1 "" ≠ "" →
       ∀ r, SuspensionRecord.try_from value = .ok r →
         ∃ t, parseI64 (value.getD 1 "") = some t ∧ r.reversal = some t) ∧
    (∀ value : List String, value.length = 9 → value.getD 1 "" = "" →
       ∀ (ts created : Int) (uid fc : Nat) (v p : Bool),
         parseI64 (value.getD 0 "") = some ts → tsValid ts = true →
         parseU64 (value.getD 2 "") = some uid →
         parseI64 (value.getD 3 "") = some created → tsValid created = true →
         parseBool (value.getD 5 "") = some v →
         parseBool (value.getD 6 "") = some p →
         parseUsize (value.getD 7 "") = some fc →
         SuspensionRecord.try_from value =
           .ok { timestamp := ts, reversal := none, user_id := uid,
                 created_at := created, screen_name := value.getD 4 "",
                 verified := v, «protected» := p, followers_count := fc,
                 profile_image_url := value.getD 8 "" }) := by
  refine ⟨rfl, fun t => rfl, ?_, ?_, ?_⟩
  · intro value h9 h1 r hr
    unfold SuspensionRecord.try_from at hr
    rw [if_pos h9] at hr
    by_cases hsp : suspTsPanics value = true
    · rw [if_pos hsp] at hr
      cases hr
    · rw [if_neg hsp, if_pos h1] at hr
      cases hp0 : parseI64 (value.getD 0 "") <;> rw [hp0] at hr <;>
      cases hp2 : parseU64 (value.getD 2 "") <;> rw [hp2] at hr <;>
      cases hp3 : parseI64 (value.getD 3 "") <;> rw [hp3] at hr <;>
      cases hp5 : parseBool (value.getD 5 "") <;> rw [hp5] at hr <;>
      cases hp6 : parseBool (value.getD 6 "") <;> rw [hp6] at hr <;>
      cases hp7 : parseUsize (value.getD 7 "") <;> rw [hp7] at hr <;>
        (cases hr <;> rfl)
  · intro value h1 r hr
    by_cases h9 : value.length = 9
    · unfold SuspensionRecord.try_from at hr
      rw [if_pos h9] at hr
      by_cases hsp : suspTsPanics value = true
      · rw [if_pos hsp] at hr
        cases hr
      · rw [if_neg hsp, if_neg h1] at hr
        cases hrev : parseI64 (value.getD 1 "") <;> rw [hrev] at hr <;>
        cases hp0 : parseI64 (value.getD 0 "") <;> rw [hp0] at hr <;>
        cases hp2 : parseU64 (value.getD 2 "") <;> rw [hp2] at hr <;>
        cases hp3 : parseI64 (value.getD 3 "") <;> rw [hp3] at hr <;>
        cases hp5 : parseBool (value.getD 5 "") <;> rw [hp5] at hr <;>
        cases hp6 : parseBool (value.getD 6 "") <;> rw [hp6] at hr <;>
        cases hp7 : parseUsize (value.getD 7 "") <;> rw [hp7] at hr <;>
          (cases hr <;> exact ⟨_, rfl, rfl⟩)
    · unfold SuspensionRecord.try_from at hr
      rw [if_neg h9] at hr
      exact absurd hr (by simp)
  · intro value h9 h1 ts created uid fc v p hp0 hvts hp2 hp3 hvcr hp5 hp6 hp7
    have hnp : suspTsPanics value = false := by
      unfold suspTsPanics
      rw [tsPanics_eq_false hp0 hvts, tsPanics_eq_false hp3 hvcr]
      (try simp only [h1]); simp
    unfold SuspensionRecord.try_from
    rw [if_pos h9, if_neg (by simp [hnp]), if_pos h1, hp0, hp2, hp3, hp5, hp6, hp7]

/-- Witness for C9: a concrete empty-reversal row parses with no reversal. -/
theorem reversal_field_handling_witness :
    SuspensionRecord.try_from
        ["1609459200", "", "42", "1500000000", "sn", "true", "false", "1000", "u"] =
      .ok { timestamp := 1609459200, reversal := none, user_id := 42,
            created_at := 1500000000, screen_name := "sn", verified := true,
            «protected» := false, followers_count := 1000,
            profile_image_url := "u" } :=
  reversal_field_handling.2.2.2.2
    ["1609459200", "", "42", "1500000000", "sn", "true", "false", "1000", "u"]
    (by decide) rfl 1609459200 1500000000 42 1000 true false
    (by decide) (by decide) (by decide) (by decide) (by decide) (by decide)
    (by decide) (by decide)

/-- The screen-name loop returns the first failing row's error, whatever
follows that row. -/
theorem parseAllSN_firstError
    (gs : List (Except Error (List String))) (b : Except Error (List String))
    (e : Error) (rest : List (Except Error (List String)))
    (hgs : ∀ x ∈ gs, ∃ raw r, x = .ok raw ∧ ScreenNameRecord.try_from raw = .ok r)
    (hb : b = .error e ∨ ∃ raw, b = .ok raw ∧ ScreenNameRecord.try_from raw = .error e) :
    parseAllSN (gs ++ b :: rest) = .error e := by
  induction gs with
  | nil =>
    rcases hb with rfl | ⟨raw, rfl, hf⟩
    · rfl
    · simp [parseAllSN, hf]
  | cons x gs ih =>
    obtain ⟨raw, r, rfl, hr⟩ := hgs x (List.mem_cons_self x gs)
    have ih' := ih (fun y hy => hgs y (List.mem_cons_of_mem _ hy))
    simp [parseAllSN, hr, ih']

/-- The suspensions loop returns the first failing row's error, whatever
follows that row. -/
theorem parseAllSusp_firstError
    (gs : List (Except Error (List String))) (b : Except Error (List String))
    (e : Error) (rest : List (Except Error (List String)))
    (hgs : ∀ x ∈ gs, ∃ raw pr, x = .ok raw ∧ processSuspensionRow raw = .ok pr)
    (hb : b = .error e ∨ ∃ raw, b = .ok raw ∧ processSuspensionRow raw = .error e) :
    parseAllSusp (gs ++ b :: rest) = .error e := by
  induction gs with
  | nil =>
    rcases hb with rfl | ⟨raw, rfl, hf⟩
    · rfl
    · simp [parseAllSusp, hf]
  | cons x gs ih =>
    obtain ⟨raw, pr, rfl, hr⟩ := hgs x (List.mem_cons_self x gs)
    have ih' := ih (fun y hy => hgs y (List.mem_cons_of_mem _ hy))
    simp [parseAllSusp, hr, ih']

/-- The screen-name loop aborts at the first panicking row, whatever
follows that row. -/
theorem parseAllSN_firstPanic
    (gs : List (Except Error (List String))) (b : Except Error (List String))
    (rest : List (Except Error (List String)))
    (hgs : ∀ x ∈ gs, ∃ raw r, x = .ok raw ∧ ScreenNameRecord.try_from raw = .ok r)
    (hb : ∃ raw, b = .ok raw ∧ ScreenNameRecord.try_from raw = .panic) :
    parseAllSN (gs ++ b :: rest) = .panic := by
  induction gs with
  | nil =>
    obtain ⟨raw, rfl, hf⟩ := hb
    simp [parseAllSN, hf]
  | cons x gs ih =>
    obtain ⟨raw, r, rfl, hr⟩ := hgs x (List.mem_cons_self x gs)
    have ih' := ih (fun y hy => hgs y (List.mem_cons_of_mem _ hy))
    simp [parseAllSN, hr, ih']

/-- The suspensions loop aborts at the first panicking row, whatever
follows that row. -/
theorem parseAllSusp_firstPanic
    (gs : List (Except Error (List String))) (b : Except Error (List String))
    (rest : List (Except Error (List String)))
    (hgs : ∀ x ∈ gs, ∃ raw pr, x = .ok raw ∧ processSuspensionRow raw = .ok pr)
    (hb : ∃ raw, b = .ok raw ∧ processSuspensionRow raw = .panic) :
    parseAllSusp (gs ++ b :: rest) = .panic := by
  induction gs with
  | nil =>
    obtain ⟨raw, rfl, hf⟩ := hb
    simp [parseAllSusp, hf]
  | cons x gs ih =>
    obtain ⟨raw, pr, rfl, hr⟩ := hgs x (List.mem_cons_self x gs)
    have ih' := ih (fun y hy => hgs y (List.mem_cons_of_mem _ hy))
    simp [parseAllSusp, hr, ih']

/-- C8 counterexample: a stream whose second row has a record-shape
grammar failure is aborted by the first row's sentinel panic — the run
does not return the record-shape error of the failing row, so the claimed
universal error-return fails. -/
theorem panic_preempts_error_counterexample :
    runSuspensions
        [.ok ["oops", "", "1", "", "sn", "true", "false", "10", "u"],
         .ok ["0", "y", "1", "1", "sn", "true", "false", "10", "u"]] = .panic ∧
    processSuspensionRow ["0", "y", "1", "1", "sn", "true", "false", "10", "u"] =
      .error (.InvalidScreenNamesRecord
        ["0", "y", "1", "1", "sn", "true", "false", "10", "u"]) :=
  ⟨by decide, by decide⟩

/-- C8 (amended): every row is read and converted before any output exists
— a report is produced only when the whole stream converted — and when the
first failing row fails with a CSV structural error or a record-shape
error and every earlier row converted (in particular, none panicked), the
run returns exactly that row's error, independent of everything after that
row, with no report output at all; a row that panics instead aborts the
run without returning any later row's error. -/
theorem fail_fast_pipeline :
    (∀ (gs : List (Except Error (List String))) (b : Except Error (List String))
        (e : Error) (rest : List (Except Error (List String))),
       (∀ x ∈ gs, ∃ raw r, x = .ok raw ∧ ScreenNameRecord.try_from raw = .ok r) →
       (b = .error e ∨ ∃ raw, b = .ok raw ∧ ScreenNameRecord.try_from raw = .error e) →
       runScreenNames (gs ++ b :: rest) = .error e) ∧
    (∀ (gs : List (Except Error (List String))) (b : Except Error (List String))
        (e : Error) (rest : List (Except Error (List String))),
       (∀ x ∈ gs, ∃ raw pr, x = .ok raw ∧ processSuspensionRow raw = .ok pr) →
       (b = .error e ∨ ∃ raw, b = .ok raw ∧ processSuspensionRow raw = .error e) →
       runSuspensions (gs ++ b :: rest) = .error e) ∧
    (∀ (gs : List (Except Error (List String))) (b : Except Error (List String))
        (rest : List (Except Error (List String))),
       (∀ x ∈ gs, ∃ raw r, x = .ok raw ∧ ScreenNameRecord.try_from raw = .ok r) →
       (∃ raw, b = .ok raw ∧ ScreenNameRecord.try_from raw = .panic) →
       runScreenNames (gs ++ b :: rest) = .panic) ∧
    (∀ (gs : List (Except Error (List String))) (b : Except Error (List String))
        (rest : List (Except Error (List String))),
       (∀ x ∈ gs, ∃ raw pr, x = .ok raw ∧ processSuspensionRow raw = .ok pr) →
       (∃ raw, b = .ok raw ∧ processSuspensionRow raw = .panic) →
       runSuspensions (gs ++ b :: rest) = .panic) ∧
    (∀ stream rep, runScreenNames stream = .ok rep →
       ∃ rs, parseAllSN stream = .ok rs ∧ rep = renderScreenNames rs) ∧
    (∀ stream rep, runSuspensions stream = .ok rep →
       ∃ prs, parseAllSusp stream = .ok prs ∧ rep = renderSuspensions prs) := by
  refine ⟨?_, ?_, ?_, ?_, ?_, ?_⟩
  · intro gs b e rest hgs hb
    unfold runScreenNames
    rw [parseAllSN_firstError gs b e rest hgs hb]
  · intro gs b e rest hgs hb
    unfold runSuspensions
    rw [parseAllSusp_firstError gs b e rest hgs hb]
  · intro gs b rest hgs hb
    unfold runScreenNames
    rw [parseAllSN_firstPanic gs b rest hgs hb]
  · intro gs b rest hgs hb
    unfold runSuspensions
    rw [parseAllSusp_firstPanic gs b rest hgs hb]
  · intro stream rep hrep
    unfold runScreenNames at hrep
    cases h : parseAllSN stream <;> rw [h] at hrep
    · cases hrep
    · cases hrep
    · exact ⟨_, rfl, by cases hrep; rfl⟩
  · intro stream rep hrep
    unfold runSuspensions at hrep
    cases h : parseAllSusp stream <;> rw [h] at hrep
    · cases hrep
    · cases hrep
    · exact ⟨_, rfl, by cases hrep; rfl⟩

/-- Witness for C8: one good row, then a bad one-field row, then a further
good row that is never converted. -/
theorem fail_fast_pipeline_witness :
    runScreenNames
        [.ok ["0", "1", "true", "false", "5", "a", "b", "c"], .ok ["bad"],
         .ok ["0", "1", "true", "false", "5", "a", "b", "c"]] =
      .error (.InvalidScreenNamesRecord ["bad"]) :=
  fail_fast_pipeline.1 [.ok ["0", "1", "true", "false", "5", "a", "b", "c"]]
    (.ok ["bad"]) (.InvalidScreenNamesRecord ["bad"])
    [.ok ["0", "1", "true", "false", "5", "a", "b", "c"]]
    (by
      intro x hx
      rw [List.mem_singleton] at hx
      subst hx
      exact ⟨["0", "1", "true", "false", "5", "a", "b", "c"],
             ⟨0, 1, true, false, 5, "a", "b", "c"⟩, rfl, rfl⟩)
    (Or.inr ⟨["bad"], rfl, rfl⟩)

/-- C6 counterexample: a URL that matches the regex shape with the
extension omitted, whose candidate local path exists, still resolves to
the original URL (the optional capture group is `zip`ped, so its absence
drops the whole match), contradicting the claim that the candidate path is
returned. -/
theorem extensionless_url_falls_back :
    parseProfileUrl "http://h/profile_images/1/a_normal" = some ("h", "1", "a", none) ∧
    (fun p => p == "./thumbnails/1-a_400x400") "./thumbnails/1-a_400x400" = true ∧
    make_profile_image_thumbnail_url (fun p => p == "./thumbnails/1-a_400x400")
        "http://h/profile_images/1/a_normal" = "http://h/profile_images/1/a_normal" ∧
    "http://h/profile_images/1/a_normal" ≠ "./thumbnails/1-a_400x400" :=
  ⟨by decide, by decide, by decide, by decide⟩

/-- C6 (amended): the resolver returns the candidate local path
`./thumbnails/<id>-<basename>_400x400.<ext>` exactly when the URL matches
the shape with an extension present and the candidate exists; when the
match fails, when the matched URL has no extension, or when the candidate
does not exist, it returns the original URL unchanged; it never fails. -/
theorem thumbnail_resolver_behavior :
    ∀ (fs : String → Bool) (url : String),
      (parseProfileUrl url = none → make_profile_image_thumbnail_url fs url = url) ∧
      (∀ host id name, parseProfileUrl url = some (host, id, name, none) →
        make_profile_image_thumbnail_url fs url = url) ∧
      (∀ host id name ext, parseProfileUrl url = some (host, id, name, some ext) →
        make_profile_image_thumbnail_url fs url =
          (if fs ("./thumbnails/" ++ id ++ "-" ++ name ++ "_400x400" ++ ext)
           then "./thumbnails/" ++ id ++ "-" ++ name ++ "_400x400" ++ ext
           else url)) := by
  intro fs url
  refine ⟨?_, ?_, ?_⟩
  · intro h
    unfold make_profile_image_thumbnail_url
    rw [h]
  · intro host id name h
    unfold make_profile_image_thumbnail_url
    rw [h]
  · intro host id name ext h
    unfold make_profile_image_thumbnail_url
    rw [h]

/-- Witness for the amended C6: a matching URL with an extension resolves
through the existence probe. -/
theorem thumbnail_resolver_behavior_witness :
    make_profile_image_thumbnail_url (fun p => p == "./thumbnails/42-abc_400x400.jpg")
        "https://pbs.twimg.com/profile_images/42/abc_normal.jpg" =
      (if (fun p => p == "./thumbnails/42-abc_400x400.jpg")
            ("./thumbnails/" ++ "42" ++ "-" ++ "abc" ++ "_400x400" ++ ".jpg")
       then "./thumbnails/" ++ "42" ++ "-" ++ "abc" ++ "_400x400" ++ ".jpg"
       else "https://pbs.twimg.com/profile_images/42/abc_normal.jpg") :=
  (thumbnail_resolver_behavior (fun p => p == "./thumbnails/42-abc_400x400.jpg")
      "https://pbs.twimg.com/profile_images/42/abc_normal.jpg").2.2
    "pbs.twimg.com" "42" "abc" ".jpg" (by decide)

/-- C10: thumbnail resolution is deterministic for a fixed filesystem
oracle, a non-matching URL resolves to itself, and re-applying the
resolver to its own fallback output yields the same output again. -/
theorem thumbnail_resolver_idempotent :
    ∀ (fs : String → Bool) (url : String),
      make_profile_image_thumbnail_url fs url = make_profile_image_thumbnail_url fs url ∧
      (parseProfileUrl url = none → make_profile_image_thumbnail_url fs url = url) ∧
      (make_profile_image_thumbnail_url fs url = url →
        make_profile_image_thumbnail_url fs (make_profile_image_thumbnail_url fs url) =
          make_profile_image_thumbnail_url fs url) := by
  intro fs url
  refine ⟨rfl, ?_, ?_⟩
  · intro h
    unfold make_profile_image_thumbnail_url
    rw [h]
  · intro h
    rw [h]
    exact h

/-- Witness for C10: a URL that does not match the shape resolves to
itself. -/
theorem thumbnail_resolver_idempotent_witness :
    make_profile_image_thumbnail_url (fun x => false) "x" = "x" :=
  (thumbnail_resolver_idempotent (fun x => false) "x").2.1 (by decide)

end TwitterWatch
